import Mathlib

/-!
Shallow embedding of `pkg/api/message.go` (botkube message schema and
button builder) together with proofs of the specification claims.

Go slices become `List`, Go strings become `String`, string-based enum
types become `String` abbreviations (preserving the zero-value-is-default
convention), nil-able pointer receivers become `Option` arguments
(`none` = nil pointer), and `time.Time` is modelled abstractly since it
comes from the Go standard library, not this repository.
-/

namespace BotkubeApi

/-- ButtonStyle is a style of Button element (string-based enum). -/
abbrev ButtonStyle := String

def ButtonStyleDefault : ButtonStyle := ""

def ButtonStylePrimary : ButtonStyle := "primary"

def ButtonStyleDanger : ButtonStyle := "danger"

/-- SelectType is a type of select dropdown (string-based enum). -/
abbrev SelectType := String

def StaticSelect : SelectType := "static"

def ExternalSelect : SelectType := "external"

/-- DividerStyle is a style of Divider element between section blocks. -/
abbrev DividerStyle := String

def DividerStyleDefault : DividerStyle := ""

def DividerStyleTopNone : DividerStyle := "none"

/-- MessageType defines the message type (string-based enum). -/
abbrev MessageType := String

/-- DispatchedInputAction defines when the action should be sent to the backend. -/
abbrev DispatchedInputAction := String

/-- ButtonDescriptionStyle defines the style of the button description. -/
abbrev ButtonDescriptionStyle := String

def ButtonDescriptionStyleBold : ButtonDescriptionStyle := "bold"

def ButtonDescriptionStyleText : ButtonDescriptionStyle := "text"

def ButtonDescriptionStyleCode : ButtonDescriptionStyle := "code"

/-- Modelled from the spec: `time.Time` comes from Go's standard library and
is not part of this repository. The spec only needs its zero value and the
`IsZero` predicate, so it is modelled as a wrapped natural number where the
zero time is `⟨0⟩`. -/
structure Time where
  val : Nat
deriving DecidableEq, Repr

/-- IsZero reports whether the time is the zero time value. -/
def Time.IsZero (t : Time) : Bool := t.val == 0

/-- Body holds message body fields. -/
structure Body where
  CodeBlock : String
  Plaintext : String
deriving DecidableEq, Repr

/-- Zero value of `Body` (Go `var emptyBase Body`). -/
def emptyBody : Body := ⟨"", ""⟩

/-- OptionItem defines an option model. -/
structure OptionItem where
  Name : String
  Value : String
deriving DecidableEq, Repr

/-- OptionGroup holds information about options in the same group. -/
structure OptionGroup where
  Name : String
  Options : List OptionItem
deriving DecidableEq, Repr

/-- Select holds data related to the select drop-down; the Go field `Type`
is rendered `type_` because `Type` is reserved in Lean. -/
structure Select where
  type_ : SelectType
  Name : String
  Command : String
  OptionGroups : List OptionGroup
  InitialOption : Option OptionItem
deriving DecidableEq, Repr

/-- Selects holds multiple Select objects. -/
structure Selects where
  ID : String
  Items : List Select
deriving DecidableEq, Repr

/-- MultiSelect holds multi select related fields. -/
structure MultiSelect where
  Name : String
  Description : Body
  Command : String
  Options : List OptionItem
  InitialOptions : List OptionItem
deriving DecidableEq, Repr

/-- LabelInput is used to create input elements to use in messages. -/
structure LabelInput where
  Command : String
  Text : String
  Placeholder : String
  DispatchedAction : DispatchedInputAction
deriving DecidableEq, Repr

/-- LabelInputs holds the plain text input items. -/
abbrev LabelInputs := List LabelInput

/-- TextField holds a text field data. -/
structure TextField where
  Key : String
  Value : String
deriving DecidableEq, Repr

/-- TextFields holds text field items. -/
abbrev TextFields := List TextField

/-- BulletList defines a bullet list primitive. -/
structure BulletList where
  Title : String
  Items : List String
deriving DecidableEq, Repr

/-- BulletLists holds the bullet lists. -/
abbrev BulletLists := List BulletList

/-- ContextItem holds context item. -/
structure ContextItem where
  Text : String
deriving DecidableEq, Repr

/-- ContextItems holds context items. -/
abbrev ContextItems := List ContextItem

/-- Button holds definition of action button. -/
structure Button where
  Description : String
  DescriptionStyle : ButtonDescriptionStyle
  Name : String
  Command : String
  URL : String
  Style : ButtonStyle
deriving DecidableEq, Repr

/-- Buttons holds definition of interactive buttons. -/
abbrev Buttons := List Button

/-- SectionStyle holds section style. -/
structure SectionStyle where
  Divider : DividerStyle
deriving DecidableEq, Repr

/-- Base holds generic message fields. -/
structure Base where
  Header : String
  Description : String
  Body : Body
deriving DecidableEq, Repr

/-- Section holds section related fields; the Go struct embeds `Base`. -/
structure Section extends Base where
  Style : SectionStyle
  Buttons : Buttons
  MultiSelect : MultiSelect
  Selects : Selects
  PlaintextInputs : LabelInputs
  TextFields : TextFields
  BulletLists : BulletLists
  Context : ContextItems
deriving DecidableEq, Repr

/-- Message represents a generic message with interactive buttons. -/
structure Message where
  type_ : MessageType
  BaseBody : Body
  Timestamp : Time
  Sections : List Section
  PlaintextInputs : LabelInputs
  OnlyVisibleForYou : Bool
  ReplaceOriginal : Bool
  UserHandle : String
  ParentActivityID : String
deriving DecidableEq, Repr

/-- HasBaseBody returns true if message has base body defined. -/
def Message.HasBaseBody (msg : Message) : Bool :=
  msg.BaseBody != emptyBody

/-- HasSections returns true if message has interactive sections. -/
def Message.HasSections (msg : Message) : Bool :=
  msg.Sections.length != 0

/-- HasInputs returns true if message has interactive inputs. -/
def Message.HasInputs (msg : Message) : Bool :=
  msg.PlaintextInputs.length != 0

/-- IsEmpty mirrors the early-return chain of `Message.IsEmpty` in Go. -/
def Message.IsEmpty (msg : Message) : Bool :=
  if msg.HasBaseBody then false
  else if msg.HasInputs then false
  else if msg.HasSections then false
  else if !msg.Timestamp.IsZero then false
  else true

/-- AreItemsDefined returns true if at least one list has items defined
(the Go loop with early return becomes `List.any`). -/
def BulletLists.AreItemsDefined (l : BulletLists) : Bool :=
  l.any (fun list => list.Items.length > 0)

/-- IsDefined returns true if there are any context items defined. -/
def ContextItems.IsDefined (c : ContextItems) : Bool :=
  c.length > 0

/-- IsEmpty returns true if all fields of the text field have zero-value. -/
def TextField.IsEmpty (t : TextField) : Bool :=
  t.Value == "" && t.Key == ""

/-- AreOptionsDefined on a nil-able `*Selects` receiver: returns true if some
select items are available (`none` models the nil pointer). -/
def Selects.AreOptionsDefined : Option Selects → Bool
  | none => false
  | some s => s.Items.length > 0

/-- AreOptionsDefined on a nil-able `*MultiSelect` receiver: returns true if
some options are available (`none` models the nil pointer). -/
def MultiSelect.AreOptionsDefined : Option MultiSelect → Bool
  | none => false
  | some m => if m.Options.length == 0 then false else true

/-- GetButtonsWithDescription returns all buttons with description; the Go
loop skips an item when `item.Description == ""` (nil receiver gives nil,
and a Go nil slice is indistinguishable from the empty list). -/
def Buttons.GetButtonsWithDescription : Option Buttons → Buttons
  | none => []
  | some s => s.filter (fun item => !(item.Description == ""))

/-- GetButtonsWithoutDescription returns all buttons without description; the
Go loop skips an item when `item.Description != ""`. -/
def Buttons.GetButtonsWithoutDescription : Option Buttons → Buttons
  | none => []
  | some s => s.filter (fun item => !(item.Description != ""))

/-- Modelled from the spec: `MessageBotNamePlaceholder` is the bot-name
placeholder token, a constant defined outside this module and substituted
later by the renderer with the actual bot invocation name; its concrete
value is not observable by any claim. -/
def MessageBotNamePlaceholder : String := "\x7b\x7bBotName\x7d\x7d"

/-- ButtonBuilder provides a simplified way to construct a Button model. -/
structure ButtonBuilder where
deriving DecidableEq, Repr

/-- commandWithDesc assembles a Button from name, command, description,
style and description style, prefixing the command with the placeholder. -/
def ButtonBuilder.commandWithDesc (_b : ButtonBuilder)
    (name cmd desc : String) (style : ButtonStyle)
    (descStyle : ButtonDescriptionStyle) : Button :=
  let cmd := MessageBotNamePlaceholder ++ " " ++ cmd
  { Name := name
    Command := cmd
    Description := desc
    DescriptionStyle := descStyle
    Style := style
    URL := "" }

/-- commandWithCmdDesc prefixes the description with the placeholder and
delegates to commandWithDesc with the code description style. -/
def ButtonBuilder.commandWithCmdDesc (b : ButtonBuilder)
    (name cmd desc : String) (style : ButtonStyle) : Button :=
  let desc := MessageBotNamePlaceholder ++ " " ++ desc
  b.commandWithDesc name cmd desc style ButtonDescriptionStyleCode

/-- ForCommandWithDescCmd returns button command where description and
command are the same; the Go variadic style parameter becomes a list, and
`bt := style[0]` when present, default otherwise. -/
def ButtonBuilder.ForCommandWithDescCmd (b : ButtonBuilder)
    (name cmd : String) (style : List ButtonStyle) : Button :=
  let bt := style.headD ButtonStyleDefault
  b.commandWithCmdDesc name cmd cmd bt

/-- ForCommandWithBoldDesc returns button command where description and
command are different. -/
def ButtonBuilder.ForCommandWithBoldDesc (b : ButtonBuilder)
    (name desc cmd : String) (style : List ButtonStyle) : Button :=
  let bt := style.headD ButtonStyleDefault
  b.commandWithDesc name cmd desc bt ButtonDescriptionStyleBold

/-- DescriptionURL returns link button with description. -/
def ButtonBuilder.DescriptionURL (_b : ButtonBuilder)
    (name cmd url : String) (style : List ButtonStyle) : Button :=
  let bt := style.headD ButtonStyleDefault
  { Name := name
    Description := MessageBotNamePlaceholder ++ " " ++ cmd
    URL := url
    Style := bt
    Command := ""
    DescriptionStyle := "" }

/-- ForCommandWithoutDesc returns button command without description. -/
def ButtonBuilder.ForCommandWithoutDesc (_b : ButtonBuilder)
    (name cmd : String) (style : List ButtonStyle) : Button :=
  let bt := style.headD ButtonStyleDefault
  let cmd := MessageBotNamePlaceholder ++ " " ++ cmd
  { Name := name
    Command := cmd
    Style := bt
    Description := ""
    DescriptionStyle := ""
    URL := "" }

/-- ForCommand returns button command with description in adaptive code
block. -/
def ButtonBuilder.ForCommand (b : ButtonBuilder)
    (name cmd desc : String) (style : List ButtonStyle) : Button :=
  let bt := style.headD ButtonStyleDefault
  b.commandWithCmdDesc name cmd desc bt

/-- ForURL returns link button. -/
def ButtonBuilder.ForURL (_b : ButtonBuilder)
    (name url : String) (style : List ButtonStyle) : Button :=
  let bt := style.headD ButtonStyleDefault
  { Name := name
    URL := url
    Style := bt
    Description := ""
    DescriptionStyle := ""
    Command := "" }

/-- ForURLWithBoldDesc returns link button with description rendered bold. -/
def ButtonBuilder.ForURLWithBoldDesc (b : ButtonBuilder)
    (name desc url : String) (style : List ButtonStyle) : Button :=
  let urlBtn := b.ForURL name url style
  { urlBtn with
    Description := desc
    DescriptionStyle := ButtonDescriptionStyleBold }

/-- ForURLWithTextDesc returns link button with description rendered as
plain text. -/
def ButtonBuilder.ForURLWithTextDesc (b : ButtonBuilder)
    (name desc url : String) (style : List ButtonStyle) : Button :=
  let urlBtn := b.ForURL name url style
  { urlBtn with
    Description := desc
    DescriptionStyle := ButtonDescriptionStyleText }

/-- C1: for every Message, IsEmpty is true iff HasBaseBody, HasInputs and
HasSections are all false and the Timestamp is the zero time value; moreover
HasBaseBody is true iff BaseBody differs from the zero Body, HasSections is
true iff Sections is non-empty, and HasInputs is true iff PlaintextInputs is
non-empty. -/
theorem message_isEmpty_characterization (msg : Message) :
    (msg.IsEmpty = true ↔
      (msg.HasBaseBody = false ∧ msg.HasInputs = false ∧ msg.HasSections = false ∧
        msg.Timestamp = ⟨0⟩)) ∧
    (msg.HasBaseBody = true ↔ msg.BaseBody ≠ emptyBody) ∧
    (msg.HasSections = true ↔ msg.Sections ≠ []) ∧
    (msg.HasInputs = true ↔ msg.PlaintextInputs ≠ []) := by
  obtain ⟨ty, bb, ⟨ts⟩, secs, inputs, vis, repl, uh, pa⟩ := msg
  refine ⟨?_, ?_, ?_, ?_⟩ <;>
    simp [Message.IsEmpty, Message.HasBaseBody, Message.HasSections, Message.HasInputs,
      Time.IsZero, Time.mk.injEq, List.length_eq_zero]

/-- C2: for every Buttons collection, GetButtonsWithDescription returns
exactly the buttons with non-empty Description and
GetButtonsWithoutDescription exactly those with empty Description, each
preserving the original relative order (sublists of the original); the
concatenation of the two results is a permutation of the original and the
two results are disjoint. -/
theorem buttons_partition_by_description (s : Buttons) :
    (∀ b : Button, b ∈ Buttons.GetButtonsWithDescription (some s) ↔
      (b ∈ s ∧ b.Description ≠ "")) ∧
    (∀ b : Button, b ∈ Buttons.GetButtonsWithoutDescription (some s) ↔
      (b ∈ s ∧ b.Description = "")) ∧
    List.Sublist (Buttons.GetButtonsWithDescription (some s)) s ∧
    List.Sublist (Buttons.GetButtonsWithoutDescription (some s)) s ∧
    List.Perm (Buttons.GetButtonsWithDescription (some s) ++
      Buttons.GetButtonsWithoutDescription (some s)) s ∧
    List.Disjoint (Buttons.GetButtonsWithDescription (some s))
      (Buttons.GetButtonsWithoutDescription (some s)) := by
  refine ⟨?_, ?_, ?_, ?_, ?_, ?_⟩
  · intro b
    simp [Buttons.GetButtonsWithDescription, List.mem_filter]
  · intro b
    simp [Buttons.GetButtonsWithoutDescription, List.mem_filter]
  · exact List.filter_sublist s
  · exact List.filter_sublist s
  · have h := List.filter_append_perm (fun item : Button => !(item.Description == "")) s
    simpa [Buttons.GetButtonsWithDescription, Buttons.GetButtonsWithoutDescription,
      bne] using h
  · intro b hb hb'
    simp [Buttons.GetButtonsWithDescription, List.mem_filter] at hb
    simp [Buttons.GetButtonsWithoutDescription, List.mem_filter] at hb'
    exact hb.2 hb'.2

/-- C3 counterexample: a non-nil Selects whose single Select has no option
groups at all offers no selectable option, yet AreOptionsDefined returns
true, refuting the claim that for non-nil Selects the result is true iff
some contained Select has at least one option available. -/
theorem selects_areOptionsDefined_counterexample :
    ¬ (Selects.AreOptionsDefined (some ⟨"", [⟨"", "", "", [], none⟩]⟩) = true ↔
        ∃ sel ∈ ([⟨"", "", "", [], none⟩] : List Select),
          ∃ g ∈ sel.OptionGroups, g.Options ≠ []) := by
  intro h
  have := h.mp rfl
  simp at this

/-- C3 amended: AreOptionsDefined on a non-nil MultiSelect is true iff its
Options list is non-empty, and on a non-nil Selects it is true iff its Items
list is non-empty — a count of contained Select elements, regardless of
whether any of them actually offers an option. -/
theorem areOptionsDefined_amended (s : Selects) (m : MultiSelect) :
    (Selects.AreOptionsDefined (some s) = true ↔ s.Items ≠ []) ∧
    (MultiSelect.AreOptionsDefined (some m) = true ↔ m.Options ≠ []) := by
  constructor
  · simp [Selects.AreOptionsDefined, List.length_pos]
  · have : (m.Options.length == 0) = true ↔ m.Options = [] := by
      simp [List.length_eq_zero]
    cases hlen : m.Options.length == 0 <;>
      simp [MultiSelect.AreOptionsDefined, hlen] <;>
      simp [hlen] at this <;> simp [this]

/-- C4: every command-producing builder operation (ForCommandWithDescCmd,
ForCommandWithBoldDesc, ForCommandWithoutDesc, ForCommand) produces a Button
whose Command is the bot-name placeholder, a single space, and the given
command, with the prefix applied exactly once. -/
theorem command_builders_prefix_once (b : ButtonBuilder) (name cmd desc : String)
    (style : List ButtonStyle) :
    (b.ForCommandWithDescCmd name cmd style).Command =
      MessageBotNamePlaceholder ++ " " ++ cmd ∧
    (b.ForCommandWithBoldDesc name desc cmd style).Command =
      MessageBotNamePlaceholder ++ " " ++ cmd ∧
    (b.ForCommandWithoutDesc name cmd style).Command =
      MessageBotNamePlaceholder ++ " " ++ cmd ∧
    (b.ForCommand name cmd desc style).Command =
      MessageBotNamePlaceholder ++ " " ++ cmd :=
  ⟨rfl, rfl, rfl, rfl⟩

/-- C5: ForCommandWithDescCmd with no style argument yields a Button whose
Name is the given name, whose Command and Description both equal the
placeholder plus a space plus the command, whose DescriptionStyle is
"code" and whose Style is the default empty style; in particular for name
"Run" and command "run-now". -/
theorem forCommandWithDescCmd_shape (b : ButtonBuilder) (name cmd : String) :
    b.ForCommandWithDescCmd name cmd [] =
      { Name := name
        Command := MessageBotNamePlaceholder ++ " " ++ cmd
        Description := MessageBotNamePlaceholder ++ " " ++ cmd
        DescriptionStyle := "code"
        Style := ""
        URL := "" } ∧
    b.ForCommandWithDescCmd "Run" "run-now" [] =
      { Name := "Run"
        Command := MessageBotNamePlaceholder ++ " " ++ "run-now"
        Description := MessageBotNamePlaceholder ++ " " ++ "run-now"
        DescriptionStyle := "code"
        Style := ""
        URL := "" } :=
  ⟨rfl, rfl⟩

/-- C6: ForURLWithBoldDesc with no style argument yields a Button whose
Name, URL and Description are the given arguments unchanged, whose
DescriptionStyle is "bold", whose Style is the default empty style and whose
Command is empty; in particular for name "Docs", description "See docs" and
url "https://x". -/
theorem forURLWithBoldDesc_shape (b : ButtonBuilder) (name desc url : String) :
    b.ForURLWithBoldDesc name desc url [] =
      { Name := name
        URL := url
        Description := desc
        DescriptionStyle := "bold"
        Style := ""
        Command := "" } ∧
    b.ForURLWithBoldDesc "Docs" "See docs" "https://x" [] =
      { Name := "Docs"
        URL := "https://x"
        Description := "See docs"
        DescriptionStyle := "bold"
        Style := ""
        Command := "" } :=
  ⟨rfl, rfl⟩

/-- C7: nil receivers are handled totally: AreOptionsDefined on a nil
Selects or nil MultiSelect returns false, and the two button getters on a
nil Buttons receiver return the nil (empty) collection rather than an
error. -/
theorem nil_receivers_are_safe :
    Selects.AreOptionsDefined none = false ∧
    MultiSelect.AreOptionsDefined none = false ∧
    Buttons.GetButtonsWithDescription none = [] ∧
    Buttons.GetButtonsWithoutDescription none = [] :=
  ⟨rfl, rfl, rfl, rfl⟩

/-- C8: AreItemsDefined on a BulletLists collection is true iff at least
one contained BulletList has a non-empty Items sequence; in particular it
is false on the empty collection. -/
theorem bulletLists_areItemsDefined_iff (l : BulletLists) :
    (BulletLists.AreItemsDefined l = true ↔ ∃ bl ∈ l, bl.Items ≠ []) ∧
    BulletLists.AreItemsDefined [] = false := by
  refine ⟨?_, rfl⟩
  simp [BulletLists.AreItemsDefined, List.any_eq_true, List.length_pos]

/-- C9: DescriptionURL returns a Button whose Command is the empty string,
whose DescriptionStyle is the empty string (no explicit "code" style), and
whose Description is the placeholder plus a space plus the command. -/
theorem descriptionURL_fields (b : ButtonBuilder) (name cmd url : String)
    (style : List ButtonStyle) :
    (b.DescriptionURL name cmd url style).Command = "" ∧
    (b.DescriptionURL name cmd url style).DescriptionStyle = "" ∧
    (b.DescriptionURL name cmd url style).Description =
      MessageBotNamePlaceholder ++ " " ++ cmd :=
  ⟨rfl, rfl, rfl⟩

/-- C10: for all names, commands and style argument lists,
ForCommandWithDescCmd name cmd style is structurally equal to
ForCommand name cmd cmd style. -/
theorem forCommandWithDescCmd_eq_forCommand (b : ButtonBuilder)
    (name cmd : String) (style : List ButtonStyle) :
    b.ForCommandWithDescCmd name cmd style = b.ForCommand name cmd cmd style :=
  rfl

end BotkubeApi
